import Mathlib

/-!
Verification of the Tansu Word add-in task-pane script against its design
specification.  The repository contains two variants of the same panel:

* `src/taskpane.js` — the WebSocket-primary variant (namespace `Ws` below);
* `src/unnamed/part_000` — the HTTP-primary variant (namespace `Http` below).

Pure logic (search filtering, HTML escaping, card rendering) is shared verbatim
between the two variants and is embedded once.  Stateful handlers are embedded
as explicit state-passing functions; transport responses and host-API outcomes
become explicit parameters; user-visible side effects (alerts, document
insertion, outgoing requests) become explicit `Action` values.  DOM and logging
side effects that carry no state (`debugLog`, card CSS pulses, scroll position)
are elided and noted at each definition.
-/

namespace Tansu

/-- A variable's value as delivered by the companion service: the contract
allows `string | number`.  JavaScript numbers are embedded as integers; the
claims under study never depend on non-integral float formatting. -/
inductive VarValue where
  | str (s : String)
  | num (n : Int)
deriving Repr, DecidableEq

/-- JavaScript `String(v.value)`: identity on strings, decimal rendering of
numbers. -/
def stringOfValue : VarValue → String
  | VarValue.str s => s
  | VarValue.num n => toString n

/-- One entry of the service's variable list: `{name, value, unit?}`. -/
structure Variable where
  name : String
  value : VarValue
  unit : Option String
deriving Repr, DecidableEq

/-- JavaScript `toLowerCase` on the character sequence. -/
def lowerL (cs : List Char) : List Char := cs.map Char.toLower

/-- JavaScript `String.prototype.toLowerCase`. -/
def jsToLower (s : String) : String := String.mk (lowerL s.data)

/-- Drop whitespace from both ends of a character sequence, as JavaScript
`String.prototype.trim` does. -/
def trimL (cs : List Char) : List Char :=
  ((cs.dropWhile Char.isWhitespace).reverse.dropWhile Char.isWhitespace).reverse

/-- JavaScript `String.prototype.trim`. -/
def jsTrim (s : String) : String := String.mk (trimL s.data)

/-- Substring scan over character lists: at every suffix of the haystack test
whether the needle is a prefix there.  This is the semantics of JavaScript
`String.prototype.includes`. -/
def containsSub (hay needle : List Char) : Bool :=
  match hay with
  | [] => needle.isEmpty
  | _ :: t => needle.isPrefixOf hay || containsSub t needle

/-- JavaScript `hay.includes(needle)`. -/
def includes (hay needle : String) : Bool := containsSub hay.data needle.data

/-- Function `handleSearch` from both variants (`src/taskpane.js` lines 285-299 and
`src/unnamed/part_000` lines 136-150; the two bodies are identical).  It reads
the search field (`searchValue`), lowercases and trims it, and returns the list
that gets passed to `renderVariables`: the full snapshot for an empty query,
otherwise the entries whose lowercased name or lowercased stringified value
includes the query. -/
def handleSearch (vars : List Variable) (searchValue : String) : List Variable :=
  let query := jsTrim (jsToLower searchValue)
  if query = "" then vars
  else vars.filter (fun v =>
    includes (jsToLower v.name) query || includes (jsToLower (stringOfValue v.value)) query)

/-- HTML text-node serialization of one character, as performed by the
browser when `escapeHtml` round-trips a string through
`div.textContent = text; div.innerHTML`: `&`, `<` and `>` become character
references, every other character — including the double quote — is emitted
verbatim. -/
def escapeChar (c : Char) : String :=
  if c = '&' then ("&amp;")
  else if c = '<' then ("&lt;")
  else if c = '>' then ("&gt;")
  else String.singleton c

/-- Function `escapeHtml` from both variants: serialize the string as an HTML text
node. -/
def escapeHtml (text : String) : String :=
  String.join (text.data.map escapeChar)

/-- Fragment of the card template guarded by the truthiness test on `v.unit`:
JavaScript truthiness makes both an absent and an empty-string unit render
nothing. -/
def unitMarkup (u : Option String) : String :=
  match u with
  | none => ""
  | some s =>
    if s = "" then ("")
    else "<span class=\"variable-unit\">" ++ escapeHtml s ++ "</span>"

/-- The template literal applied to one variable inside `renderVariables`
(whitespace reproduced exactly from the source). -/
def cardMarkup (v : Variable) : String :=
  "\n        <div class=\"variable-card\" data-name=\"" ++ escapeHtml v.name
    ++ "\">\n            <div class=\"variable-name\">" ++ escapeHtml v.name
    ++ "</div>\n            <div class=\"variable-value\">\n                "
    ++ escapeHtml (stringOfValue v.value)
    ++ "\n                " ++ unitMarkup v.unit
    ++ "\n            </div>\n        </div>\n    "

/-- Observable output of `renderVariables`: the per-item card markup (the
source joins these with the empty separator into `variablesListEl.innerHTML`),
and whether the "no results" indicator is displayed. -/
structure RenderResult where
  cards : List String
  noResults : Bool
deriving Repr, DecidableEq

/-- Function `renderVariables` from both variants: an empty input clears the list and
shows the "no results" indicator; otherwise the indicator is hidden and each
entry is mapped through the card template. -/
def renderVariables (vars : List Variable) : RenderResult :=
  if vars.length = 0 then { cards := [], noResults := true }
  else { cards := vars.map cardMarkup, noResults := false }

/-- The status indicator classes set through `setStatus`. -/
inductive ConnStatus where
  | checking
  | connected
  | error
deriving Repr, DecidableEq

/-- User-visible or outward effects of a handler: a blocking `alert`, a text
insertion through the host document API (`Word.run` / `insertText`), an
outgoing `POST /insert` carrying a variable name, or a `get_variables` frame
sent on the open socket. -/
inductive Action where
  | alert (msg : String)
  | wordInsert (text : String)
  | httpPost (name : String)
  | wsSend
deriving Repr, DecidableEq

/-- Which transport a connection attempt or fetch goes out on. -/
inductive Transport where
  | websocket
  | http
deriving Repr, DecidableEq

/-- A parsed incoming WebSocket frame, as inspected by `ws.onmessage`:
`variablesMsg vs` is `{type:"variables"}` whose `variables` field is `vs`
(`none` when the field is absent, null or otherwise falsy);
`insertResult` is `{type:"insert_result"}`; `other` is any successfully
parsed message of a different shape (neither branch of the handler fires). -/
inductive WsMsg where
  | variablesMsg (vs : Option (List Variable))
  | insertResult (success : Bool) (err : String)
  | other
deriving Repr, DecidableEq

namespace Ws

/-- Constant `MAX_WS_ATTEMPTS` from `src/taskpane.js`. -/
def MAX_WS_ATTEMPTS : Nat := 2

/-- The module-level mutable state of `src/taskpane.js` together with the
observable DOM state the claims mention: the `variables` snapshot, the
connection flag, the WebSocket attempt counter, the fallback flag, the status
indicator, the loading and error panels, the rendered list, and the current
content of the search field. -/
structure WState where
  snapshot : List Variable
  isConnected : Bool
  wsConnectionAttempts : Nat
  useHttpFallback : Bool
  status : ConnStatus
  loadingShown : Bool
  errorShown : Bool
  rendered : RenderResult
  searchValue : String
deriving Repr, DecidableEq

/-- State at page load: empty snapshot, not connected, zero attempts, primary
transport. -/
def initState : WState :=
  { snapshot := []
    isConnected := false
    wsConnectionAttempts := 0
    useHttpFallback := false
    status := ConnStatus.checking
    loadingShown := false
    errorShown := false
    rendered := { cards := [], noResults := false }
    searchValue := "" }

/-- Function `checkConnectionAndLoad` from `src/taskpane.js` (lines 135-220), up to the
point where a request leaves the panel: set the checking status, show the
loading panel, hide the error panel; then either fetch over HTTP (fallback
mode) or bump the attempt counter and open a WebSocket.  Closing a previous
socket and installing its callbacks carry no modelled state and are elided;
the asynchronous continuations are the separate `onOpen`/`onMessage`/`onClose`/
`loadVariablesViaHttp` functions. -/
def checkConnectionAndLoad (s : WState) : WState × Transport :=
  let s1 := { s with status := ConnStatus.checking, loadingShown := true, errorShown := false }
  if s1.useHttpFallback then (s1, Transport.http)
  else ({ s1 with wsConnectionAttempts := s1.wsConnectionAttempts + 1 }, Transport.websocket)

/-- Function `tryHttpFallback` from `src/taskpane.js` (lines 225-234): at or above the
attempt ceiling, latch the fallback flag and fetch over HTTP; below it,
re-run `checkConnectionAndLoad` (the 1-second delay is elided). -/
def tryHttpFallback (s : WState) : WState × Transport :=
  if MAX_WS_ATTEMPTS ≤ s.wsConnectionAttempts then
    ({ s with useHttpFallback := true }, Transport.http)
  else checkConnectionAndLoad s

/-- Continuation of the `fetch` in `loadVariablesViaHttp` (lines 239-264).
`resp = none` is a network error or non-2xx response (the `catch` branch);
`resp = some vs` is a 2xx response whose JSON body had `variables` field `vs`
(`none` inside when the field is absent or falsy). -/
def loadVariablesViaHttp (s : WState) (resp : Option (Option (List Variable))) : WState :=
  match resp with
  | none =>
    { s with isConnected := false, status := ConnStatus.error,
             errorShown := true, loadingShown := false }
  | some vs =>
    let s1 := { s with snapshot := vs.getD [] }
    { s1 with isConnected := true, status := ConnStatus.connected,
              rendered := renderVariables s1.snapshot, loadingShown := false }

/-- Handler `ws.onopen` (lines 168-176): mark connected, reset the attempt counter,
set the connected status and request the variable list (persisting the
welcome flag is elided). -/
def onOpen (s : WState) : WState × List Action :=
  ({ s with isConnected := true, wsConnectionAttempts := 0, status := ConnStatus.connected },
   [Action.wsSend])

/-- Handler `ws.onmessage` (lines 178-194).  `none` models a frame on which
`JSON.parse` (or the subsequent property access) threw — the `catch` only
logs.  A `variables` message replaces the snapshot (defaulting a falsy field
to `[]`), re-renders the full snapshot and hides the loading panel.  A failed
`insert_result` raises an alert.  Any other parsed shape falls through both
branches.  `debugLog` calls are elided. -/
def onMessage (s : WState) (m : Option WsMsg) : WState × List Action :=
  match m with
  | none => (s, [])
  | some (WsMsg.variablesMsg vs) =>
    let s1 := { s with snapshot := vs.getD [] }
    ({ s1 with rendered := renderVariables s1.snapshot, loadingShown := false }, [])
  | some (WsMsg.insertResult ok err) =>
    if ok then (s, [])
    else (s, [Action.alert ("Failed to insert variable: " ++ err)])
  | some WsMsg.other => (s, [])

/-- Handler `ws.onclose` (lines 201-214): if the socket never connected, escalate to
`tryHttpFallback` (which may issue a new attempt — the second component names
its transport); if it was connected, record the disconnect. -/
def onClose (s : WState) : WState × Option Transport :=
  if s.isConnected then
    ({ s with isConnected := false, status := ConnStatus.error }, none)
  else
    let r := tryHttpFallback s
    (r.1, some r.2)

/-- Function `refreshVariables` from `src/taskpane.js` (lines 269-280), fired by the
5-second timer: in fallback mode fetch over HTTP; otherwise, when not
connected or the socket is not open, re-run the bootstrap; else send
`get_variables` on the socket.  `wsOpen` is `ws && ws.readyState === OPEN`. -/
def refreshVariables (s : WState) (wsOpen : Bool) : WState × Transport :=
  if s.useHttpFallback then (s, Transport.http)
  else if !s.isConnected || !wsOpen then checkConnectionAndLoad s
  else (s, Transport.websocket)

/-- The two assignments of the retry-button listener (lines 64-68), before it
re-runs `checkConnectionAndLoad`: reset the attempt counter and return to the
primary transport. -/
def retryReset (s : WState) : WState :=
  { s with wsConnectionAttempts := 0, useHttpFallback := false }

/-- The whole retry-button listener. -/
def retryClick (s : WState) : WState × Transport :=
  checkConnectionAndLoad (retryReset s)

/-- Function `insertVariable` from `src/taskpane.js` (lines 332-358), as the actions it
emits: look the name up in the (unfiltered) snapshot; when absent, alert and
return; when present, insert the stringified value through the host API
(`wordOk`/`wordErr` model the outcome of `Word.run`).  The transient card CSS
pulse is elided.  The function reads but never writes the snapshot. -/
def insertVariable (vars : List Variable) (varName : String)
    (wordOk : Bool) (wordErr : String) : List Action :=
  match vars.find? (fun v => v.name == varName) with
  | none => [Action.alert ("Variable not found")]
  | some v =>
    if wordOk then [Action.wordInsert (stringOfValue v.value)]
    else [Action.alert ("Failed to insert variable: " ++ wordErr)]

end Ws

namespace Http

/-- The module-level mutable state of `src/unnamed/part_000` together with the
observable DOM state the claims mention. -/
structure HState where
  snapshot : List Variable
  isConnected : Bool
  status : ConnStatus
  loadingShown : Bool
  errorShown : Bool
  rendered : RenderResult
  searchValue : String
deriving Repr, DecidableEq

/-- State at page load for the HTTP-primary variant. -/
def initState : HState :=
  { snapshot := []
    isConnected := false
    status := ConnStatus.checking
    loadingShown := false
    errorShown := false
    rendered := { cards := [], noResults := false }
    searchValue := "" }

/-- Function `handleSearch` as invoked for its side effect in `part_000`: render the
snapshot filtered by the current search field. -/
def handleSearchRender (s : HState) : HState :=
  { s with rendered := renderVariables (handleSearch s.snapshot s.searchValue) }

/-- Function `loadVariables` from `src/unnamed/part_000` (lines 81-100).  `resp = none`
is a failed or non-2xx `GET /variables` (the `catch` branch: log and
`showError()` — note it leaves `isConnected` and the status untouched);
`resp = some vs` replaces the snapshot (defaulting a falsy `variables` field
to `[]`), renders it and hides the loading panel. -/
def loadVariables (s : HState) (resp : Option (Option (List Variable))) : HState :=
  match resp with
  | none => { s with errorShown := true, loadingShown := false }
  | some vs =>
    let s1 := { s with snapshot := vs.getD [] }
    { s1 with rendered := renderVariables s1.snapshot, loadingShown := false }

/-- Function `checkConnectionAndLoad` from `src/unnamed/part_000` (lines 49-76): show
the checking status and loading panel, hide the error panel, then `GET /ping`.
On a 2xx ping (`pingOk`), mark connected and continue into `loadVariables`
with the `/variables` outcome; otherwise mark disconnected and show the error
panel.  The `/variables` request is only issued when the ping succeeded, which
is why `resp` is unread in the failure branch. -/
def checkConnectionAndLoad (s : HState) (pingOk : Bool)
    (resp : Option (Option (List Variable))) : HState :=
  let s1 := { s with status := ConnStatus.checking, loadingShown := true, errorShown := false }
  if pingOk then
    let s2 := { s1 with isConnected := true, status := ConnStatus.connected }
    loadVariables s2 resp
  else
    { s1 with isConnected := false, status := ConnStatus.error,
              errorShown := true, loadingShown := false }

/-- Function `refreshVariables` from `src/unnamed/part_000` (lines 105-131), fired by
the 5-second timer: when not connected, re-run the full bootstrap; when
connected, `GET /variables` without touching the loading panel, replace the
snapshot on success and re-render through the current search filter
(`handleSearch()`), or on failure record the lost connection (log only, no
error panel). -/
def refreshVariables (s : HState) (pingOk : Bool)
    (resp : Option (Option (List Variable))) : HState :=
  if s.isConnected then
    match resp with
    | none => { s with isConnected := false, status := ConnStatus.error }
    | some vs => handleSearchRender { s with snapshot := vs.getD [] }
  else checkConnectionAndLoad s pingOk resp

/-- Function `insertVariable` from `src/unnamed/part_000` (lines 183-220), as the
actions it emits: it performs no snapshot lookup — it always issues
`POST /insert` with the clicked name, and alerts only when the service
responds with an error (`respOk = false`, message `respErr`).  The card CSS
pulse is elided. -/
def insertVariable (varName : String) (respOk : Bool) (respErr : String) : List Action :=
  Action.httpPost varName ::
    (if respOk then [] else [Action.alert ("Failed to insert variable: " ++ respErr)])

end Http

/-! ## Specification-side definitions

These follow the wording of the specification, independently of the scanning
algorithm the source uses, so that the search claims are genuine refinements.
-/

/-- The specification's "contains `t` as a case-insensitive substring":
some decomposition of the lowercased haystack exhibits the lowercased needle
as a contiguous segment. -/
def CIOccurs (t s : String) : Prop :=
  lowerL t.data <:+: lowerL s.data

instance (t s : String) : Decidable (CIOccurs t s) :=
  List.decidableInfix (lowerL t.data) (lowerL s.data)

/-! ## Helper lemmas -/

/-- The substring scan agrees with the specification's infix relation. -/
theorem containsSub_iff (hay needle : List Char) :
    containsSub hay needle = true ↔ needle <:+: hay := by
  induction hay with
  | nil => simp [containsSub]
  | cons a t ih =>
    simp only [containsSub, Bool.or_eq_true, List.isPrefixOf_iff_prefix, ih]
    exact (List.infix_cons_iff).symm

/-- The substring scan is the decision procedure of the infix relation. -/
theorem containsSub_eq_decide (hay needle : List Char) :
    containsSub hay needle = decide (needle <:+: hay) := by
  by_cases h : needle <:+: hay
  · rw [decide_eq_true h, (containsSub_iff hay needle).mpr h]
  · rw [decide_eq_false h]
    exact Bool.eq_false_iff.mpr (fun hc => h ((containsSub_iff hay needle).mp hc))

/-! ## Claim theorems -/

/-- Claim C2: for every variable list `L` and search term `t` (a term carries
no surrounding whitespace, as the handler trims the field value), the list
`handleSearch` renders is exactly the `filter` of `L` by the predicate "the
name or the stringified value contains `t` as a case-insensitive substring",
and the empty term renders `L` unchanged (identity law).  Purity holds by
construction: the result is a function of `L` and `t` alone. -/
theorem handleSearch_ci_filter (L : List Variable) (t : String)
    (ht : jsTrim (jsToLower t) = jsToLower t) :
    handleSearch L t =
      L.filter (fun v => decide (CIOccurs t v.name ∨ CIOccurs t (stringOfValue v.value))) ∧
    handleSearch L ("") = L := by
  constructor
  · show (let query := jsTrim (jsToLower t);
      if query = "" then L
      else L.filter (fun v =>
        includes (jsToLower v.name) query
          || includes (jsToLower (stringOfValue v.value)) query)) = _
    rw [ht]
    by_cases h : jsToLower t = ""
    · rw [if_pos h]
      have hnil : lowerL t.data = [] := congrArg String.data h
      symm
      rw [List.filter_eq_self]
      intro v _
      exact decide_eq_true (Or.inl (by rw [CIOccurs, hnil]; exact List.nil_infix))
    · rw [if_neg h]
      apply List.filter_congr
      intro v _
      have e : ∀ s : String, includes (jsToLower s) (jsToLower t) = decide (CIOccurs t s) := by
        intro s
        have e1 : includes (jsToLower s) (jsToLower t)
            = containsSub (lowerL s.data) (lowerL t.data) := rfl
        rw [e1, containsSub_eq_decide]
        rfl
      rw [Bool.decide_or, e, e]
  · rfl

/-- A concrete variable list shaped like the specification's example
scenario. -/
def demoVars : List Variable :=
  [{ name := "Revenue", value := VarValue.num 1000000, unit := some ("USD") },
   { name := "Growth", value := VarValue.str ("12%"), unit := none }]

/-- Witness for C2 at a concrete list and the term from the specification's
example scenario. -/
theorem handleSearch_ci_filter_witness :
    handleSearch demoVars ("rev") =
      List.filter
        (fun v => decide (CIOccurs ("rev") v.name ∨ CIOccurs ("rev") (stringOfValue v.value)))
        demoVars ∧
    handleSearch demoVars ("") = demoVars :=
  handleSearch_ci_filter demoVars ("rev") (by decide)

/-- Claim C9: the filtered sequence is a sublist of the snapshot — surviving
variables keep their server-defined relative order — and filtering never
mutates the snapshot (the embedding is a pure function of the snapshot, which
the source reflects: `Array.prototype.filter` allocates a new array). -/
theorem handleSearch_sublist (L : List Variable) (t : String) :
    List.Sublist (handleSearch L t) L := by
  show List.Sublist (if jsTrim (jsToLower t) = "" then L
    else L.filter (fun v =>
      includes (jsToLower v.name) (jsTrim (jsToLower t))
        || includes (jsToLower (stringOfValue v.value)) (jsTrim (jsToLower t)))) L
  split
  · exact List.Sublist.refl L
  · exact List.filter_sublist L

/-- Claim C6: the rendered card count equals the input length, and the
"no results" indicator shows exactly when the input is empty (in particular an
empty response renders zero cards and the indicator). -/
theorem renderVariables_count (vars : List Variable) :
    (renderVariables vars).cards.length = vars.length ∧
    (renderVariables vars).noResults = vars.isEmpty := by
  cases vars with
  | nil => simp [renderVariables]
  | cons a l => simp [renderVariables]

/-- Claim C8: a frame that fails to parse (`none`) or parses to an unexpected
shape (`WsMsg.other`) is skipped: the handler terminates (totality of the
embedding), raises no user-visible action — the source only calls `debugLog`
 — and leaves the snapshot, connection state and rendered view unchanged. -/
theorem onMessage_malformed_skipped (s : Ws.WState) :
    Ws.onMessage s none = (s, []) ∧ Ws.onMessage s (some WsMsg.other) = (s, []) :=
  ⟨rfl, rfl⟩

/-- Claim C10: a successful variables message or fetch whose `variables` field
is absent or falsy resets the snapshot of either variant to the empty list and
renders the "no results" indicator with zero cards, regardless of the previous
snapshot. -/
theorem missing_field_renders_empty (w : Ws.WState) (h : Http.HState) :
    (Ws.onMessage w (some (WsMsg.variablesMsg none))).1.snapshot = [] ∧
    (Ws.onMessage w (some (WsMsg.variablesMsg none))).1.rendered =
      { cards := [], noResults := true } ∧
    Http.loadVariables h (some none) =
      { h with snapshot := [], rendered := { cards := [], noResults := true },
               loadingShown := false } :=
  ⟨rfl, rfl, rfl⟩

/-- The bootstrap run of the WebSocket variant in which both socket attempts
fail to open: the initial `checkConnectionAndLoad`, a failure escalating
through `tryHttpFallback` (which retries), and a second failure escalating
again. -/
def afterTwoFailures : Ws.WState × Transport :=
  let a1 := Ws.checkConnectionAndLoad Ws.initState
  let a2 := Ws.tryHttpFallback a1.1
  Ws.tryHttpFallback a2.1

/-- Claim C4: (1) from the initial state, the first socket failure stays on
the primary transport and the second failure — the attempt ceiling
`MAX_WS_ATTEMPTS = 2` — latches the HTTP fallback and fetches over HTTP;
(2) while the fallback flag is set, a refresh tick and a bootstrap both fetch
over HTTP and keep the flag set, and no incoming message clears it; (3) the
retry button's handler resets the attempt counter to 0 and the flag to false
before reconnecting, and the reconnect then goes out on the primary
WebSocket. -/
theorem fallback_after_ceiling_until_retry (s s2 : Ws.WState) (wsOpen : Bool)
    (m : Option WsMsg) (hs : s.useHttpFallback = true) :
    ((Ws.tryHttpFallback (Ws.checkConnectionAndLoad Ws.initState).1).2 = Transport.websocket ∧
     afterTwoFailures.1.useHttpFallback = true ∧
     afterTwoFailures.1.wsConnectionAttempts = Ws.MAX_WS_ATTEMPTS ∧
     afterTwoFailures.2 = Transport.http) ∧
    (Ws.refreshVariables s wsOpen = (s, Transport.http) ∧
     (Ws.checkConnectionAndLoad s).2 = Transport.http ∧
     (Ws.checkConnectionAndLoad s).1.useHttpFallback = true ∧
     (Ws.onMessage s m).1.useHttpFallback = true) ∧
    ((Ws.retryReset s2).wsConnectionAttempts = 0 ∧
     (Ws.retryReset s2).useHttpFallback = false ∧
     (Ws.retryClick s2).2 = Transport.websocket) := by
  refine ⟨?_, ⟨?_, ?_, ?_, ?_⟩, rfl, rfl, rfl⟩
  · decide
  · simp [Ws.refreshVariables, hs]
  · simp [Ws.checkConnectionAndLoad, hs]
  · simp [Ws.checkConnectionAndLoad, hs]
  · cases m with
    | none => exact hs
    | some msg =>
      cases msg with
      | variablesMsg vs => exact hs
      | insertResult ok err => cases ok <;> exact hs
      | other => exact hs

/-- Witness for C4 at a concrete fallback-mode state. -/
theorem fallback_after_ceiling_until_retry_witness :
    ({ Ws.initState with useHttpFallback := true } : Ws.WState).useHttpFallback = true ∧
    (((Ws.tryHttpFallback (Ws.checkConnectionAndLoad Ws.initState).1).2 = Transport.websocket ∧
      afterTwoFailures.1.useHttpFallback = true ∧
      afterTwoFailures.1.wsConnectionAttempts = Ws.MAX_WS_ATTEMPTS ∧
      afterTwoFailures.2 = Transport.http) ∧
     (Ws.refreshVariables { Ws.initState with useHttpFallback := true } true =
        ({ Ws.initState with useHttpFallback := true }, Transport.http) ∧
      (Ws.checkConnectionAndLoad { Ws.initState with useHttpFallback := true }).2 =
        Transport.http ∧
      (Ws.checkConnectionAndLoad { Ws.initState with useHttpFallback := true }).1.useHttpFallback
        = true ∧
      (Ws.onMessage { Ws.initState with useHttpFallback := true } none).1.useHttpFallback
        = true) ∧
     ((Ws.retryReset Ws.initState).wsConnectionAttempts = 0 ∧
      (Ws.retryReset Ws.initState).useHttpFallback = false ∧
      (Ws.retryClick Ws.initState).2 = Transport.websocket)) :=
  ⟨rfl, fallback_after_ceiling_until_retry
    { Ws.initState with useHttpFallback := true } Ws.initState true none rfl⟩

/-- A fresh variable list pushed to the panel while a search is active. -/
def c5Fresh : List Variable :=
  [{ name := "alpha", value := VarValue.str ("1"), unit := none }]

/-- A connected WebSocket-variant state whose search field holds `zz`. -/
def c5State : Ws.WState :=
  { Ws.initState with isConnected := true, searchValue := "zz" }

/-- Claim C5 counterexample: in the WebSocket variant a refresh tick while
connected does send a silent `get_variables` request, but when the fresh list
arrives `ws.onmessage` renders it in full — it does not re-apply the entered
search filter before rendering, so the rendered view differs from the
filtered rendering the claim requires. -/
theorem ws_refresh_ignores_filter :
    (Ws.refreshVariables c5State true).2 = Transport.websocket ∧
    (Ws.onMessage c5State (some (WsMsg.variablesMsg (some c5Fresh)))).1.rendered ≠
      renderVariables (handleSearch c5Fresh c5State.searchValue) := by
  decide

/-- Claim C5 as amended: on a refresh tick while connected, neither variant
shows the loading UI; the HTTP-primary variant replaces the snapshot and
re-applies the current search filter before rendering, while the
WebSocket-primary variant's message handler renders the fresh list
unfiltered. -/
theorem refresh_tick_refilter_behavior (s : Http.HState) (vs : Option (List Variable))
    (pingOk : Bool) (hconn : s.isConnected = true)
    (w : Ws.WState) (hw1 : w.useHttpFallback = false) (hw2 : w.isConnected = true)
    (fresh : List Variable) :
    Http.refreshVariables s pingOk (some vs) =
      { s with snapshot := vs.getD [],
               rendered := renderVariables (handleSearch (vs.getD []) s.searchValue) } ∧
    Ws.refreshVariables w true = (w, Transport.websocket) ∧
    (Ws.onMessage w (some (WsMsg.variablesMsg (some fresh)))).1.rendered =
      renderVariables fresh := by
  refine ⟨?_, ?_, rfl⟩
  · simp [Http.refreshVariables, Http.handleSearchRender, hconn]
  · simp [Ws.refreshVariables, hw1, hw2]

/-- Witness for the amended C5 at concrete connected states. -/
theorem refresh_tick_refilter_behavior_witness :
    ({ Http.initState with isConnected := true } : Http.HState).isConnected = true ∧
    (Http.refreshVariables { Http.initState with isConnected := true } true (some (some c5Fresh)) =
      { ({ Http.initState with isConnected := true } : Http.HState) with
          snapshot := (some c5Fresh).getD [],
          rendered := renderVariables (handleSearch ((some c5Fresh).getD [])
            ({ Http.initState with isConnected := true } : Http.HState).searchValue) } ∧
     Ws.refreshVariables { Ws.initState with isConnected := true } true =
       ({ Ws.initState with isConnected := true }, Transport.websocket) ∧
     (Ws.onMessage { Ws.initState with isConnected := true }
        (some (WsMsg.variablesMsg (some c5Fresh)))).1.rendered = renderVariables c5Fresh) :=
  ⟨rfl, refresh_tick_refilter_behavior { Http.initState with isConnected := true }
    (some c5Fresh) true rfl { Ws.initState with isConnected := true } rfl rfl c5Fresh⟩

/-- Claim C7 counterexample: in the HTTP-primary variant, a successful ping
followed by a failing `GET /variables` surfaces the error UI but leaves the
state marked connected — the claim's "marks the state disconnected at either
step" fails at the variables step. -/
theorem http_variables_failure_keeps_connected :
    (Http.checkConnectionAndLoad Http.initState true none).isConnected = true ∧
    (Http.checkConnectionAndLoad Http.initState true none).status = ConnStatus.connected ∧
    (Http.checkConnectionAndLoad Http.initState true none).errorShown = true := by
  decide

/-- Claim C7 as amended: the HTTP-primary connection sequence pings first; a
failed ping marks the state disconnected, surfaces the error UI and never
touches the variables outcome; a successful ping marks the state connected
and proceeds to `GET /variables`; a failure there surfaces the error UI while
the connected marking persists.  (The WebSocket variant's HTTP fallback,
which skips the ping, does mark the state disconnected when its fetch
fails.) -/
theorem http_connection_sequence (s s2 : Http.HState)
    (resp : Option (Option (List Variable))) (vs : Option (List Variable)) (w : Ws.WState) :
    Http.checkConnectionAndLoad s false resp =
      { s with status := ConnStatus.error, isConnected := false,
               errorShown := true, loadingShown := false } ∧
    (Http.checkConnectionAndLoad s2 true resp).isConnected = true ∧
    Http.checkConnectionAndLoad s2 true none =
      { s2 with status := ConnStatus.connected, isConnected := true,
                errorShown := true, loadingShown := false } ∧
    Http.checkConnectionAndLoad s2 true (some vs) =
      { s2 with status := ConnStatus.connected, isConnected := true,
                errorShown := false, loadingShown := false,
                snapshot := vs.getD [], rendered := renderVariables (vs.getD []) } ∧
    Ws.loadVariablesViaHttp w none =
      { w with isConnected := false, status := ConnStatus.error,
               errorShown := true, loadingShown := false } := by
  refine ⟨rfl, ?_, rfl, rfl, rfl⟩
  cases resp <;> rfl

/-- Claim C3 counterexample: the HTTP-primary variant's insert action performs
no snapshot lookup — for the name `ghost`, absent from the (empty) snapshot,
it still issues the `POST /insert` service call and only then relays the
service-reported error. -/
theorem http_insert_absent_still_posts :
    List.find? (fun v => v.name == "ghost") ([] : List Variable) = none ∧
    Http.insertVariable ("ghost") false ("insert failed") =
      [Action.httpPost ("ghost"),
       Action.alert ("Failed to insert variable: insert failed")] :=
  ⟨rfl, rfl⟩

/-- Claim C3 as amended: in the WebSocket-primary variant, invoking the insert
action with a name absent from the current unfiltered snapshot issues no
service call and no document insertion — its only action is the user-visible
error alert — and the snapshot is left untouched (the handler never writes
it).  The HTTP-primary variant instead posts the name to the service without
a lookup. -/
theorem ws_insert_absent_only_alerts (vars : List Variable) (varName : String)
    (wordOk : Bool) (wordErr : String)
    (habs : List.find? (fun v => v.name == varName) vars = none) :
    Ws.insertVariable vars varName wordOk wordErr = [Action.alert ("Variable not found")] := by
  unfold Ws.insertVariable
  rw [habs]

/-- Witness for the amended C3 at an absent name. -/
theorem ws_insert_absent_only_alerts_witness :
    List.find? (fun v => v.name == "ghost") ([] : List Variable) = none ∧
    Ws.insertVariable [] ("ghost") true ("") = [Action.alert ("Variable not found")] :=
  ⟨rfl, ws_insert_absent_only_alerts [] ("ghost") true ("") rfl⟩

/-- A service-supplied variable name that carries double quotes: harmless to
text-node escaping, fatal inside a double-quoted attribute. -/
def badName : String := "x\" onmouseover=\"alert(1)"

/-- The rendered card's markup up to the point where the payload's quote has
closed the `data-name` attribute: note it contains the tag-opening `<` but no
`>`, so everything that follows up to the next `>` is parsed as part of the
`div` tag. -/
def injPre : String := "\n        <div class=\"variable-card\" data-name=\"x\" "

/-- The rest of the card markup after the injected attribute. -/
def injPost : String :=
  ">\n            <div class=\"variable-name\">x\" onmouseover=\"alert(1)</div>\n            <div class=\"variable-value\">\n                1\n                \n            </div>\n        </div>\n    "

set_option maxRecDepth 4000 in
/-- Claim C1, failing input: `escapeHtml` passes double quotes through
unchanged, so rendering a variable named `x" onmouseover="alert(1)` produces
card markup in which `onmouseover="alert(1)"` stands inside the still-open
`div` tag (the prefix before it contains no `>`), i.e. the service payload is
interpreted as markup — an event-handler attribute — in the `data-name`
position.  The claim that escaping prevents every payload from being
interpreted as markup is therefore violated by the code. -/
theorem rendered_card_attribute_injection :
    escapeHtml badName = badName ∧
    renderVariables [{ name := badName, value := VarValue.str ("1"), unit := none }] =
      { cards := [injPre ++ "onmouseover=\"alert(1)\"" ++ injPost], noResults := false } ∧
    injPre.data.contains '>' = false := by
  refine ⟨?_, ?_, ?_⟩ <;> decide

end Tansu
